import Mathlib

/-!
Shallow embedding of the ProMoAI session controller (src/app_nicegui.py).

The controller is the class ProMoAIApp. Its fields that the session logic
reads and writes are collected in the structure AppState below; UI widget
handles are represented by the string values the handlers read from them
(description_input.value, feedback_input.value), and ui.notify calls are
omitted (they carry no session state). The potentially failing external
calls (promoai generation and update, pm4py parsers) are not under src/,
so each handler takes the outcome of the external calls it may perform as
an explicit Except parameter or function parameter; the handler definitions
themselves mirror the Python control flow of app_nicegui.py line by line.

The async handlers await exactly one executor call. Each is embedded as a
synchronous prefix (the code up to run_in_executor, returning the state at
the await point together with the dispatched request, if any) composed with
a resume function (the code after the await, or the except branch when the
awaited call raised). The composition is the sequential semantics; the
phases let interleaving of two handler invocations be stated.
-/

namespace ProMoAI

/-- A process model object as held by the controller in self.model_gen.
objId models Python object identity (two references are the same object
iff their objId agrees); content abstracts the model data, which the
external engine may change in place without creating a new object. -/
structure Model where
  objId : Nat
  content : Nat
deriving DecidableEq

/-- An abstract parsed event log, the result of read_xes. -/
structure EventLog where
  data : Nat
deriving DecidableEq

/-- Process tree (POWL) values. The only way the controller obtains one is
get_powl on a model, so the constructor records the model content it came
from. -/
inductive PTree where
  | ofModel (content : Nat)
deriving DecidableEq

/-- Petri nets, tagged with their provenance: converted from a process tree
by convert_to_petri_net, or parsed from a .pnml file by read_pnml. -/
inductive PetriNet where
  | ofTree (t : PTree)
  | parsed (id : Nat)
deriving DecidableEq

/-- Initial/final markings, tagged with provenance like PetriNet; the
final flag distinguishes the final marking from the initial one. -/
inductive Marking where
  | ofTree (t : PTree) (final : Bool)
  | parsed (id : Nat) (final : Bool)
deriving DecidableEq

/-- BPMN graphs, tagged with provenance: converted from a Petri net by
convert_to_bpmn, parsed from a .bpmn file by read_bpmn, or produced by the
bpmn_layouter layout pass. -/
inductive BpmnGraph where
  | ofNet (pn : PetriNet) (im fm : Marking)
  | parsed (id : Nat)
  | layouted (g : BpmnGraph)
deriving DecidableEq

/-- self.model_gen.get_powl(): the process tree of the canonical model. -/
def get_powl (m : Model) : PTree :=
  PTree.ofModel m.content

/-- pm4py convert_to_petri_net applied to a POWL tree, returning the net
with its initial and final markings. -/
def convert_to_petri_net (t : PTree) : PetriNet × Marking × Marking :=
  (PetriNet.ofTree t, Marking.ofTree t false, Marking.ofTree t true)

/-- pm4py convert_to_bpmn applied to a Petri net with markings. -/
def convert_to_bpmn (pn : PetriNet) (im fm : Marking) : BpmnGraph :=
  BpmnGraph.ofNet pn im fm

/-- pm4py bpmn_layouter.apply. -/
def bpmn_layouter_apply (g : BpmnGraph) : BpmnGraph :=
  BpmnGraph.layouted g

/-- The controller state: the session-relevant instance fields of
ProMoAIApp (lines 22 to 28 of app_nicegui.py), with the two text widgets
represented by their current string values. -/
structure AppState where
  provider : String
  model_name : String
  api_key : String
  selected_mode : String
  description_value : String
  feedback_value : String
  model_gen : Option Model
  feedback_history : List String
deriving DecidableEq

/-- A request handed to loop.run_in_executor: either a generation from
text (promoai.generate_model_from_text with its four arguments) or a model
update (self.model_gen.update on a given model object with its four
arguments). -/
inductive Dispatch where
  | genFromText (description apiKey modelName provider : String)
  | updateModel (m : Model) (feedback apiKey modelName provider : String)
deriving DecidableEq

/-- Synchronous prefix of handle_text_generation (lines 66 to 87): the two
validation checks, then the executor dispatch. Returns the state at the
await point and the dispatched request; none means the handler returned
before reaching the executor call. No controller field is assigned before
the await, so the returned state is the entry state. -/
def textGen_phase1 (s : AppState) : AppState × Option Dispatch :=
  if s.description_value = "" then (s, none)
  else if s.api_key = "" then (s, none)
  else (s, some (Dispatch.genFromText s.description_value s.api_key s.model_name s.provider))

/-- Code of handle_text_generation after the await resumes (lines 88 to
94): on success install the returned model and clear the feedback history;
on an exception from the awaited call, the except branch only notifies. -/
def textGen_resume (s : AppState) (r : Except String Model) : AppState :=
  match r with
  | Except.error _ => s
  | Except.ok m => { s with model_gen := some m, feedback_history := [] }

/-- handle_text_generation (lines 66 to 94), sequential semantics: the
synchronous prefix followed, when a request was dispatched, by the resume
code applied to the outcome r of the executor call. -/
def handle_text_generation (s : AppState) (r : Except String Model) : AppState :=
  match (textGen_phase1 s).2 with
  | none => (textGen_phase1 s).1
  | some _ => textGen_resume (textGen_phase1 s).1 r

/-- Synchronous prefix of update_model_with_feedback (lines 178 to 198):
the two validation checks, then the executor dispatch of
self.model_gen.update. When self.model_gen is None, the attribute access
raises inside the try before any dispatch and the except branch only
notifies, so no request is dispatched and the state is unchanged. No
controller field is assigned before the await. -/
def updateFeedback_phase1 (s : AppState) : AppState × Option Dispatch :=
  if s.feedback_value = "" then (s, none)
  else if s.api_key = "" then (s, none)
  else
    match s.model_gen with
    | none => (s, none)
    | some m =>
      (s, some (Dispatch.updateModel m s.feedback_value s.api_key s.model_name s.provider))

/-- Code of update_model_with_feedback after the await resumes (lines 199
to 207). The handler discards the return value of the update call and
never reassigns self.model_gen: a successful update has changed the stored
object in place (same objId, new content c), after which the handler
appends the current feedback text to the history and clears the feedback
widget. On an exception from the awaited call, the except branch only
notifies. -/
def updateFeedback_resume (s : AppState) (r : Except String Nat) : AppState :=
  match r with
  | Except.error _ => s
  | Except.ok c =>
    match s.model_gen with
    | none => s
    | some m =>
      { s with model_gen := some { m with content := c },
               feedback_history := s.feedback_history ++ [s.feedback_value],
               feedback_value := "" }

/-- update_model_with_feedback (lines 178 to 207), sequential semantics;
r is the outcome of the executor update call (a new content on success). -/
def update_model_with_feedback (s : AppState) (r : Except String Nat) : AppState :=
  match (updateFeedback_phase1 s).2 with
  | none => (updateFeedback_phase1 s).1
  | some _ => updateFeedback_resume (updateFeedback_phase1 s).1 r

/-- File-system side effects of the upload handlers on the transient
directory self.temp_dir: os.makedirs, the write of the uploaded bytes, and
shutil.rmtree of the whole directory. -/
inductive FsOp where
  | mkdirTemp
  | writeFile (name : String)
  | rmtreeTemp
deriving DecidableEq

/-- Characterwise split, mirroring the Python str.split with a one-char
separator: splitChar sep cs never returns an empty list. -/
def splitChar (sep : Char) (cs : List Char) : List (List Char) :=
  cs.foldr
    (fun c acc => if c = sep then [] :: acc else (c :: acc.headD []) :: acc.tail)
    [[]]

/-- e.name.split(".")[-1].lower() from line 140 of app_nicegui.py. -/
def file_extension_of (name : String) : String :=
  String.mk (((splitChar '.' name.data).getLastD []).map Char.toLower)

/-- handle_log_upload (lines 96 to 130). hasContent is the truthiness of
e.content; readXes is the outcome of read_xes on the written file; genLog
is promoai.generate_model_from_event_log, run in the executor. Returns the
final state together with the trace of file-system operations performed on
the transient directory: the except branch (parse or generation failure)
and the success path both end in shutil.rmtree. -/
def handle_log_upload (s : AppState) (name : String) (hasContent : Bool)
    (readXes : Except String EventLog)
    (genLog : EventLog → Except String Model) : AppState × List FsOp :=
  if !hasContent then (s, [])
  else
    let ops : List FsOp := [FsOp.mkdirTemp, FsOp.writeFile name]
    match readXes with
    | Except.error _ => (s, ops ++ [FsOp.rmtreeTemp])
    | Except.ok log =>
      match genLog log with
      | Except.error _ => (s, ops ++ [FsOp.rmtreeTemp])
      | Except.ok m =>
        ({ s with model_gen := some m, feedback_history := [] },
         ops ++ [FsOp.rmtreeTemp])

/-- handle_model_upload (lines 132 to 176). The extension of e.name picks
the branch: "bpmn" parses with read_bpmn and generates with
promoai.generate_model_from_bpmn; "pnml" parses with read_pnml, obtaining
a net with initial and final markings, and passes only the net to
promoai.generate_model_from_petri_net; any other extension raises, and the
except branch removes the transient directory, as on every other failure
path. -/
def handle_model_upload (s : AppState) (name : String) (hasContent : Bool)
    (readBpmn : Except String BpmnGraph)
    (readPnml : Except String (PetriNet × Marking × Marking))
    (genBpmn : BpmnGraph → Except String Model)
    (genPn : PetriNet → Except String Model) : AppState × List FsOp :=
  if !hasContent then (s, [])
  else
    let ext := file_extension_of name
    let ops : List FsOp := [FsOp.mkdirTemp, FsOp.writeFile name]
    if ext = "bpmn" then
      match readBpmn with
      | Except.error _ => (s, ops ++ [FsOp.rmtreeTemp])
      | Except.ok g =>
        match genBpmn g with
        | Except.error _ => (s, ops ++ [FsOp.rmtreeTemp])
        | Except.ok m =>
          ({ s with model_gen := some m, feedback_history := [] },
           ops ++ [FsOp.rmtreeTemp])
    else if ext = "pnml" then
      match readPnml with
      | Except.error _ => (s, ops ++ [FsOp.rmtreeTemp])
      | Except.ok (pn, _, _) =>
        match genPn pn with
        | Except.error _ => (s, ops ++ [FsOp.rmtreeTemp])
        | Except.ok m =>
          ({ s with model_gen := some m, feedback_history := [] },
           ops ++ [FsOp.rmtreeTemp])
    else (s, ops ++ [FsOp.rmtreeTemp])

/-- The ViewType values of the view selector; the final else of
update_visualization treats every non-POWL, non-PETRI value as BPMN, and
the selector offers exactly these three values. -/
inductive ViewType where
  | powl
  | petri
  | bpmn
deriving DecidableEq

/-- What update_visualization renders, tagged with what it was built from:
the POWL visualizer applied to a tree, the Petri-net visualizer applied to
a net with markings, or the BPMN visualizer applied to a BPMN graph. -/
inductive VisOutput where
  | powlVis (t : PTree)
  | petriVis (pn : PetriNet) (im fm : Marking)
  | bpmnVis (g : BpmnGraph)
deriving DecidableEq

/-- update_visualization (lines 233 to 263). Returns what is rendered into
the image container, or none when the early guard (no model or no view
selector) returns. The POWL tree and the Petri net are computed before the
branch; the POWL branch renders the tree directly, the Petri branch
renders the converted net, and the BPMN branch renders the layouted
conversion of the net. -/
def update_visualization (s : AppState) (hasViewSelect : Bool)
    (view : ViewType) : Option VisOutput :=
  match s.model_gen, hasViewSelect with
  | none, _ => none
  | some _, false => none
  | some m, true =>
    let powl := get_powl m
    let (pn, im, fm) := convert_to_petri_net powl
    match view with
    | ViewType.powl => some (VisOutput.powlVis powl)
    | ViewType.petri => some (VisOutput.petriVis pn im fm)
    | ViewType.bpmn =>
      some (VisOutput.bpmnVis (bpmn_layouter_apply (convert_to_bpmn pn im fm)))

/-- download_bpmn (lines 209 to 220): the BPMN graph that is serialized
and downloaded, or none when self.model_gen is None (the attribute access
raises and the except branch only notifies). -/
def download_bpmn (s : AppState) : Option BpmnGraph :=
  match s.model_gen with
  | none => none
  | some m =>
    let powl := get_powl m
    let (pn, im, fm) := convert_to_petri_net powl
    some (bpmn_layouter_apply (convert_to_bpmn pn im fm))

/-- download_pnml (lines 222 to 231): the net with markings that is
serialized and downloaded, or none when self.model_gen is None. -/
def download_pnml (s : AppState) : Option (PetriNet × Marking × Marking) :=
  match s.model_gen with
  | none => none
  | some m => some (convert_to_petri_net (get_powl m))

/-- update_model_name (lines 61 to 64): reset self.model_name to the
default of the current provider; defaults is the AI_MODEL_DEFAULTS table,
which lives outside src/ and is passed as a parameter. The mirroring write
into the name widget is presentation and omitted. -/
def update_model_name (defaults : String → String) (s : AppState) : AppState :=
  { s with model_name := defaults s.provider }

/-- on_provider_change (lines 351 to 355): store the new provider, then
update_model_name; the tooltip update is presentation and omitted. -/
def on_provider_change (defaults : String → String) (value : String)
    (s : AppState) : AppState :=
  update_model_name defaults { s with provider := value }

/-- The synchronous prefix of update_model_with_feedback does not change
the controller state: only validation and a notification happen before the
executor dispatch. -/
theorem updateFeedback_phase1_fst (s : AppState) :
    (updateFeedback_phase1 s).1 = s := by
  unfold updateFeedback_phase1
  by_cases hf : s.feedback_value = ""
  · simp [hf]
  · by_cases hk : s.api_key = ""
    · simp [hf, hk]
    · cases hm : s.model_gen <;> simp [hf, hk, hm]

/-- The synchronous prefix of handle_text_generation does not change the
controller state. -/
theorem textGen_phase1_fst (s : AppState) :
    (textGen_phase1 s).1 = s := by
  unfold textGen_phase1
  by_cases hd : s.description_value = ""
  · simp [hd]
  · by_cases hk : s.api_key = ""
    · simp [hd, hk]
    · simp [hd, hk]

/-- The update dispatch fires exactly when the feedback text and the API
key are non-empty and a model object is present. -/
theorem updateFeedback_phase1_isSome (s : AppState) :
    (updateFeedback_phase1 s).2.isSome = true ↔
      (s.feedback_value ≠ "" ∧ s.api_key ≠ "" ∧ s.model_gen.isSome = true) := by
  unfold updateFeedback_phase1
  by_cases hf : s.feedback_value = ""
  · simp [hf]
  · by_cases hk : s.api_key = ""
    · simp [hf, hk]
    · cases hm : s.model_gen <;> simp [hf, hk, hm]

/-- The text-generation dispatch fires exactly when the description and
the API key are non-empty. -/
theorem textGen_phase1_isSome (s : AppState) :
    (textGen_phase1 s).2.isSome = true ↔
      (s.description_value ≠ "" ∧ s.api_key ≠ "") := by
  unfold textGen_phase1
  by_cases hd : s.description_value = ""
  · simp [hd]
  · by_cases hk : s.api_key = ""
    · simp [hd, hk]
    · simp [hd, hk]

/-- A state with a working model (object identity 5, content 7), a
non-empty description, non-empty feedback text and a non-empty API key. -/
def c1State : AppState :=
  { provider := "google", model_name := "gemini-2.0-flash", api_key := "k",
    selected_mode := "Text", description_value := "",
    feedback_value := "add a check step",
    model_gen := some { objId := 5, content := 7 },
    feedback_history := [] }

/-- Claim C1, counterexample: after a successful update call the handler
never reassigns self.model_gen, so the stored model is the same object as
before (object identity 5 on both sides), not a new distinct object. -/
theorem c1_applyFeedback_same_object_cex :
    (update_model_with_feedback c1State (Except.ok 9)).model_gen.map Model.objId
        = some 5 ∧
    c1State.model_gen.map Model.objId = some 5 := by decide

/-- Claim C1 as amended: on every successful applyFeedback with non-empty
feedback text and API key, the stored model keeps its object identity (the
update is applied in place to the same object, whose content becomes the
value produced by the update call), and the feedback text is appended to
the history. -/
theorem c1_applyFeedback_inplace (s : AppState) (m : Model) (c : Nat)
    (hm : s.model_gen = some m) (hf : s.feedback_value ≠ "")
    (hk : s.api_key ≠ "") :
    (update_model_with_feedback s (Except.ok c)).model_gen
        = some { objId := m.objId, content := c } ∧
    (update_model_with_feedback s (Except.ok c)).feedback_history
        = s.feedback_history ++ [s.feedback_value] := by
  simp [update_model_with_feedback, updateFeedback_phase1,
    updateFeedback_resume, hm, hf, hk]

/-- Witness for the amended claim C1 at the concrete state c1State. -/
theorem c1_applyFeedback_inplace_witness :
    (update_model_with_feedback c1State (Except.ok 9)).model_gen
        = some { objId := 5, content := 9 } ∧
    (update_model_with_feedback c1State (Except.ok 9)).feedback_history
        = ["add a check step"] := by
  simpa using
    c1_applyFeedback_inplace c1State { objId := 5, content := 7 } 9 rfl
      (by decide) (by decide)

/-- Claim C2: when the awaited update call raises, the except branch only
notifies, so the whole controller state is unchanged: in particular the
feedback history is unchanged and self.model_gen is the same object as
before the call. -/
theorem c2_failed_update_preserves_state (s : AppState) (msg : String) :
    update_model_with_feedback s (Except.error msg) = s := by
  unfold update_model_with_feedback
  cases h : (updateFeedback_phase1 s).2 with
  | none => exact updateFeedback_phase1_fst s
  | some d => exact updateFeedback_phase1_fst s

/-- Claim C3: in each of the three entry modes, a successful generate
stores exactly the model returned by the external call in self.model_gen
and resets the feedback history to the empty list: from text (non-empty
description and API key), from a parsed event log, and from a parsed
.bpmn or .pnml model file. -/
theorem c3_successful_generate :
    (∀ (s : AppState) (m : Model),
      s.description_value ≠ "" → s.api_key ≠ "" →
      (handle_text_generation s (Except.ok m)).model_gen = some m ∧
      (handle_text_generation s (Except.ok m)).feedback_history = []) ∧
    (∀ (s : AppState) (name : String) (log : EventLog)
        (genLog : EventLog → Except String Model) (m : Model),
      genLog log = Except.ok m →
      (handle_log_upload s name true (Except.ok log) genLog).1.model_gen
          = some m ∧
      (handle_log_upload s name true (Except.ok log) genLog).1.feedback_history
          = []) ∧
    (∀ (s : AppState) (name : String) (g : BpmnGraph)
        (readPnml : Except String (PetriNet × Marking × Marking))
        (genBpmn : BpmnGraph → Except String Model)
        (genPn : PetriNet → Except String Model) (m : Model),
      file_extension_of name = "bpmn" → genBpmn g = Except.ok m →
      (handle_model_upload s name true (Except.ok g) readPnml genBpmn
          genPn).1.model_gen = some m ∧
      (handle_model_upload s name true (Except.ok g) readPnml genBpmn
          genPn).1.feedback_history = []) ∧
    (∀ (s : AppState) (name : String) (pn : PetriNet) (im fm : Marking)
        (readBpmn : Except String BpmnGraph)
        (genBpmn : BpmnGraph → Except String Model)
        (genPn : PetriNet → Except String Model) (m : Model),
      file_extension_of name = "pnml" → genPn pn = Except.ok m →
      (handle_model_upload s name true readBpmn (Except.ok (pn, im, fm))
          genBpmn genPn).1.model_gen = some m ∧
      (handle_model_upload s name true readBpmn (Except.ok (pn, im, fm))
          genBpmn genPn).1.feedback_history = []) := by
  refine ⟨?_, ?_, ?_, ?_⟩
  · intro s m hd hk
    simp [handle_text_generation, textGen_phase1, textGen_resume, hd, hk]
  · intro s name log genLog m hg
    simp [handle_log_upload, hg]
  · intro s name g readPnml genBpmn genPn m hext hg
    simp [handle_model_upload, hext, hg]
  · intro s name pn im fm readBpmn genBpmn genPn m hext hg
    simp [handle_model_upload, hext, hg]

/-- A state with an empty session (no model yet), a non-empty description
and a non-empty API key, used to instantiate the generation claims. -/
def genState : AppState :=
  { provider := "openai", model_name := "gpt-4o", api_key := "k",
    selected_mode := "Text", description_value := "a purchase process",
    feedback_value := "", model_gen := none, feedback_history := ["old"] }

/-- Witness for claim C3, instantiating all four modes at concrete
inputs. -/
theorem c3_successful_generate_witness :
    ((handle_text_generation genState
        (Except.ok { objId := 1, content := 1 })).model_gen
        = some { objId := 1, content := 1 } ∧
     (handle_text_generation genState
        (Except.ok { objId := 1, content := 1 })).feedback_history = []) ∧
    ((handle_log_upload genState "trace.xes" true (Except.ok { data := 0 })
        (fun _ => Except.ok { objId := 2, content := 2 })).1.model_gen
        = some { objId := 2, content := 2 } ∧
     (handle_log_upload genState "trace.xes" true (Except.ok { data := 0 })
        (fun _ => Except.ok { objId := 2, content := 2 })).1.feedback_history
        = []) ∧
    ((handle_model_upload genState "m.bpmn" true
        (Except.ok (BpmnGraph.parsed 0)) (Except.error "unused")
        (fun _ => Except.ok { objId := 3, content := 3 })
        (fun _ => Except.error "unused")).1.model_gen
        = some { objId := 3, content := 3 } ∧
     (handle_model_upload genState "m.bpmn" true
        (Except.ok (BpmnGraph.parsed 0)) (Except.error "unused")
        (fun _ => Except.ok { objId := 3, content := 3 })
        (fun _ => Except.error "unused")).1.feedback_history = []) ∧
    ((handle_model_upload genState "m.pnml" true (Except.error "unused")
        (Except.ok (PetriNet.parsed 1, Marking.parsed 1 false,
          Marking.parsed 1 true))
        (fun _ => Except.error "unused")
        (fun _ => Except.ok { objId := 4, content := 4 })).1.model_gen
        = some { objId := 4, content := 4 } ∧
     (handle_model_upload genState "m.pnml" true (Except.error "unused")
        (Except.ok (PetriNet.parsed 1, Marking.parsed 1 false,
          Marking.parsed 1 true))
        (fun _ => Except.error "unused")
        (fun _ => Except.ok { objId := 4, content := 4 })).1.feedback_history
        = []) :=
  ⟨c3_successful_generate.1 genState { objId := 1, content := 1 }
      (by decide) (by decide),
   c3_successful_generate.2.1 genState "trace.xes" { data := 0 }
      (fun _ => Except.ok { objId := 2, content := 2 })
      { objId := 2, content := 2 } rfl,
   c3_successful_generate.2.2.1 genState "m.bpmn" (BpmnGraph.parsed 0)
      (Except.error "unused")
      (fun _ => Except.ok { objId := 3, content := 3 })
      (fun _ => Except.error "unused") { objId := 3, content := 3 }
      (by decide) rfl,
   c3_successful_generate.2.2.2 genState "m.pnml" (PetriNet.parsed 1)
      (Marking.parsed 1 false) (Marking.parsed 1 true)
      (Except.error "unused")
      (fun _ => Except.error "unused")
      (fun _ => Except.ok { objId := 4, content := 4 })
      { objId := 4, content := 4 } (by decide) rfl⟩

/-- Claim C4: on every failing generate attempt, the except branch only
removes the transient directory and notifies, so the whole controller
state — in particular the previously stored model and the feedback
history — is retained unchanged. The conjuncts cover: the text path when
the generation call raises; the log path when read_xes raises or the
generation call raises; the model path when read_bpmn, read_pnml or the
corresponding generation call raises, and the unsupported-extension
raise. -/
theorem c4_failed_generate_retains_state :
    (∀ (s : AppState) (msg : String),
      handle_text_generation s (Except.error msg) = s) ∧
    (∀ (s : AppState) (name : String) (hc : Bool) (msg : String)
        (genLog : EventLog → Except String Model),
      (handle_log_upload s name hc (Except.error msg) genLog).1 = s) ∧
    (∀ (s : AppState) (name : String) (hc : Bool) (log : EventLog)
        (msg : String) (genLog : EventLog → Except String Model),
      genLog log = Except.error msg →
      (handle_log_upload s name hc (Except.ok log) genLog).1 = s) ∧
    (∀ (s : AppState) (name : String) (hc : Bool) (msg : String)
        (readPnml : Except String (PetriNet × Marking × Marking))
        (genBpmn : BpmnGraph → Except String Model)
        (genPn : PetriNet → Except String Model),
      file_extension_of name = "bpmn" →
      (handle_model_upload s name hc (Except.error msg) readPnml genBpmn
          genPn).1 = s) ∧
    (∀ (s : AppState) (name : String) (hc : Bool) (g : BpmnGraph)
        (msg : String)
        (readPnml : Except String (PetriNet × Marking × Marking))
        (genBpmn : BpmnGraph → Except String Model)
        (genPn : PetriNet → Except String Model),
      file_extension_of name = "bpmn" → genBpmn g = Except.error msg →
      (handle_model_upload s name hc (Except.ok g) readPnml genBpmn
          genPn).1 = s) ∧
    (∀ (s : AppState) (name : String) (hc : Bool) (msg : String)
        (readBpmn : Except String BpmnGraph)
        (genBpmn : BpmnGraph → Except String Model)
        (genPn : PetriNet → Except String Model),
      file_extension_of name = "pnml" →
      (handle_model_upload s name hc readBpmn (Except.error msg) genBpmn
          genPn).1 = s) ∧
    (∀ (s : AppState) (name : String) (hc : Bool) (pn : PetriNet)
        (im fm : Marking) (msg : String)
        (readBpmn : Except String BpmnGraph)
        (genBpmn : BpmnGraph → Except String Model)
        (genPn : PetriNet → Except String Model),
      file_extension_of name = "pnml" → genPn pn = Except.error msg →
      (handle_model_upload s name hc readBpmn (Except.ok (pn, im, fm))
          genBpmn genPn).1 = s) ∧
    (∀ (s : AppState) (name : String) (hc : Bool)
        (readBpmn : Except String BpmnGraph)
        (readPnml : Except String (PetriNet × Marking × Marking))
        (genBpmn : BpmnGraph → Except String Model)
        (genPn : PetriNet → Except String Model),
      file_extension_of name ≠ "bpmn" → file_extension_of name ≠ "pnml" →
      (handle_model_upload s name hc readBpmn readPnml genBpmn
          genPn).1 = s) := by
  refine ⟨?_, ?_, ?_, ?_, ?_, ?_, ?_, ?_⟩
  · intro s msg
    unfold handle_text_generation
    cases h : (textGen_phase1 s).2 with
    | none => exact textGen_phase1_fst s
    | some d => exact textGen_phase1_fst s
  · intro s name hc msg genLog
    cases hc <;> simp [handle_log_upload]
  · intro s name hc log msg genLog hg
    cases hc <;> simp [handle_log_upload, hg]
  · intro s name hc msg readPnml genBpmn genPn hext
    cases hc <;> simp [handle_model_upload, hext]
  · intro s name hc g msg readPnml genBpmn genPn hext hg
    cases hc <;> simp [handle_model_upload, hext, hg]
  · intro s name hc msg readBpmn genBpmn genPn hext
    cases hc <;> simp [handle_model_upload, hext]
  · intro s name hc pn im fm msg readBpmn genBpmn genPn hext hg
    cases hc <;> simp [handle_model_upload, hext, hg]
  · intro s name hc readBpmn readPnml genBpmn genPn hb hp
    cases hc <;> simp [handle_model_upload, hb, hp]

/-- Witness for claim C4, instantiating every failure path at concrete
inputs; genState holds a prior feedback history, which is retained. -/
theorem c4_failed_generate_retains_state_witness :
    handle_text_generation genState (Except.error "boom") = genState ∧
    (handle_log_upload genState "trace.xes" true (Except.error "bad xes")
        (fun _ => Except.ok { objId := 2, content := 2 })).1 = genState ∧
    (handle_log_upload genState "trace.xes" true (Except.ok { data := 0 })
        (fun _ => Except.error "engine down")).1 = genState ∧
    (handle_model_upload genState "m.bpmn" true (Except.error "bad bpmn")
        (Except.error "unused") (fun _ => Except.ok { objId := 3, content := 3 })
        (fun _ => Except.error "unused")).1 = genState ∧
    (handle_model_upload genState "m.bpmn" true
        (Except.ok (BpmnGraph.parsed 0)) (Except.error "unused")
        (fun _ => Except.error "engine down")
        (fun _ => Except.error "unused")).1 = genState ∧
    (handle_model_upload genState "m.pnml" true (Except.error "unused")
        (Except.error "bad pnml") (fun _ => Except.error "unused")
        (fun _ => Except.ok { objId := 4, content := 4 })).1 = genState ∧
    (handle_model_upload genState "m.pnml" true (Except.error "unused")
        (Except.ok (PetriNet.parsed 1, Marking.parsed 1 false,
          Marking.parsed 1 true))
        (fun _ => Except.error "unused")
        (fun _ => Except.error "engine down")).1 = genState ∧
    (handle_model_upload genState "m.txt" true (Except.error "unused")
        (Except.error "unused") (fun _ => Except.error "unused")
        (fun _ => Except.error "unused")).1 = genState :=
  ⟨c4_failed_generate_retains_state.1 genState "boom",
   c4_failed_generate_retains_state.2.1 genState "trace.xes" true "bad xes"
      (fun _ => Except.ok { objId := 2, content := 2 }),
   c4_failed_generate_retains_state.2.2.1 genState "trace.xes" true
      { data := 0 } "engine down" (fun _ => Except.error "engine down") rfl,
   c4_failed_generate_retains_state.2.2.2.1 genState "m.bpmn" true "bad bpmn"
      (Except.error "unused") (fun _ => Except.ok { objId := 3, content := 3 })
      (fun _ => Except.error "unused") (by decide),
   c4_failed_generate_retains_state.2.2.2.2.1 genState "m.bpmn" true
      (BpmnGraph.parsed 0) "engine down" (Except.error "unused")
      (fun _ => Except.error "engine down")
      (fun _ => Except.error "unused") (by decide) rfl,
   c4_failed_generate_retains_state.2.2.2.2.2.1 genState "m.pnml" true
      "bad pnml" (Except.error "unused") (fun _ => Except.error "unused")
      (fun _ => Except.ok { objId := 4, content := 4 }) (by decide),
   c4_failed_generate_retains_state.2.2.2.2.2.2.1 genState "m.pnml" true
      (PetriNet.parsed 1) (Marking.parsed 1 false) (Marking.parsed 1 true)
      "engine down" (Except.error "unused") (fun _ => Except.error "unused")
      (fun _ => Except.error "engine down") (by decide) rfl,
   c4_failed_generate_retains_state.2.2.2.2.2.2.2 genState "m.txt" true
      (Except.error "unused") (Except.error "unused")
      (fun _ => Except.error "unused") (fun _ => Except.error "unused")
      (by decide) (by decide)⟩

/-- A state with a working model, non-empty description, feedback text and
API key: both mutating handlers pass validation here. -/
def busyState : AppState :=
  { provider := "anthropic", model_name := "claude-sonnet",
    api_key := "k", selected_mode := "Text",
    description_value := "an order process", feedback_value := "rename task",
    model_gen := some { objId := 8, content := 2 },
    feedback_history := [] }

/-- Claim C5, counterexample: no reentrancy guard exists. The first
applyFeedback dispatches its update from busyState; the state at its await
point is busyState itself (nothing is assigned before the executor call),
and a second applyFeedback entered at that moment passes the same
validation and dispatches too, so two gateway update calls are in flight
for the same session. -/
theorem c5_no_reentrancy_guard_cex :
    (updateFeedback_phase1 busyState).2.isSome = true ∧
    (updateFeedback_phase1
        (updateFeedback_phase1 busyState).1).2.isSome = true := by decide

/-- Claim C5 as amended: the controller has no reentrancy guard. The
handlers change no controller field before dispatching to the executor,
and the dispatch decision is a function of input validation alone, so
whenever a generate or applyFeedback dispatches, an identical call entered
while the first is awaiting dispatches as well, instead of being
refused. -/
theorem c5_no_guard_second_call_dispatches (s : AppState) :
    (updateFeedback_phase1 s).1 = s ∧
    (textGen_phase1 s).1 = s ∧
    ((updateFeedback_phase1 s).2.isSome = true →
      (updateFeedback_phase1
        (updateFeedback_phase1 s).1).2.isSome = true) ∧
    ((textGen_phase1 s).2.isSome = true →
      (textGen_phase1 (textGen_phase1 s).1).2.isSome = true) := by
  refine ⟨updateFeedback_phase1_fst s, textGen_phase1_fst s, ?_, ?_⟩
  · intro h
    rwa [updateFeedback_phase1_fst s]
  · intro h
    rwa [textGen_phase1_fst s]

/-- Witness for the amended claim C5 at busyState. -/
theorem c5_no_guard_second_call_dispatches_witness :
    (updateFeedback_phase1 busyState).1 = busyState ∧
    (textGen_phase1 busyState).1 = busyState ∧
    (updateFeedback_phase1
        (updateFeedback_phase1 busyState).1).2.isSome = true ∧
    (textGen_phase1 (textGen_phase1 busyState).1).2.isSome = true :=
  ⟨(c5_no_guard_second_call_dispatches busyState).1,
   (c5_no_guard_second_call_dispatches busyState).2.1,
   (c5_no_guard_second_call_dispatches busyState).2.2.1 (by decide),
   (c5_no_guard_second_call_dispatches busyState).2.2.2 (by decide)⟩

/-- A state whose model name is empty while the description and the API
key are non-empty. -/
def emptyNameState : AppState :=
  { provider := "google", model_name := "", api_key := "k",
    selected_mode := "Text", description_value := "a claims process",
    feedback_value := "", model_gen := none, feedback_history := [] }

/-- Claim C6, counterexample: the handlers never check the model name, so
generation from text dispatches to the gateway even though the stored
model name is the empty string — the dispatched request carries it. -/
theorem c6_model_name_unchecked_cex :
    emptyNameState.model_name = "" ∧
    (textGen_phase1 emptyNameState).2
        = some (Dispatch.genFromText "a claims process" "k" "" "google") := by
  decide

/-- Claim C6 as amended: the gateway is invoked exactly when the input
text (description, or feedback together with a present model) and the API
key are non-empty; the model name is not validated and may be empty. When
validation fails, the handler returns before any gateway call with the
controller state unchanged. -/
theorem c6_dispatch_requires_text_and_key (s : AppState) :
    ((textGen_phase1 s).2.isSome = true ↔
      (s.description_value ≠ "" ∧ s.api_key ≠ "")) ∧
    ((updateFeedback_phase1 s).2.isSome = true ↔
      (s.feedback_value ≠ "" ∧ s.api_key ≠ "" ∧ s.model_gen.isSome = true)) ∧
    ((textGen_phase1 s).2 = none →
      ∀ r, handle_text_generation s r = s) ∧
    ((updateFeedback_phase1 s).2 = none →
      ∀ r, update_model_with_feedback s r = s) := by
  refine ⟨textGen_phase1_isSome s, updateFeedback_phase1_isSome s, ?_, ?_⟩
  · intro h r
    unfold handle_text_generation
    rw [h]
    exact textGen_phase1_fst s
  · intro h r
    unfold update_model_with_feedback
    rw [h]
    exact updateFeedback_phase1_fst s

/-- A state failing both validations: empty description and empty
feedback text. -/
def idleState : AppState :=
  { provider := "deepseek", model_name := "deepseek-chat", api_key := "k",
    selected_mode := "Text", description_value := "", feedback_value := "",
    model_gen := some { objId := 6, content := 6 },
    feedback_history := [] }

/-- Witness for the amended claim C6 at idleState: with empty input text
neither handler dispatches and the state is returned unchanged. -/
theorem c6_dispatch_requires_text_and_key_witness :
    handle_text_generation idleState (Except.error "never sent") = idleState ∧
    update_model_with_feedback idleState (Except.error "never sent")
        = idleState :=
  ⟨(c6_dispatch_requires_text_and_key idleState).2.2.1 (by decide) _,
   (c6_dispatch_requires_text_and_key idleState).2.2.2 (by decide) _⟩

/-- Every trace of handle_log_upload is empty (no upload content) or
consists of creating the directory, writing the file, and removing the
directory last. -/
theorem log_upload_ops (s : AppState) (name : String) (hc : Bool)
    (readXes : Except String EventLog)
    (genLog : EventLog → Except String Model) :
    (handle_log_upload s name hc readXes genLog).2 = [] ∨
    (handle_log_upload s name hc readXes genLog).2
        = [FsOp.mkdirTemp, FsOp.writeFile name, FsOp.rmtreeTemp] := by
  unfold handle_log_upload
  cases hc with
  | false => left; rfl
  | true =>
    cases readXes with
    | error msg => right; rfl
    | ok log =>
      cases hg : genLog log with
      | error msg => right; simp [hg]
      | ok m => right; simp [hg]

/-- Every trace of handle_model_upload is empty (no upload content) or
consists of creating the directory, writing the file, and removing the
directory last. -/
theorem model_upload_ops (s : AppState) (name : String) (hc : Bool)
    (readBpmn : Except String BpmnGraph)
    (readPnml : Except String (PetriNet × Marking × Marking))
    (genBpmn : BpmnGraph → Except String Model)
    (genPn : PetriNet → Except String Model) :
    (handle_model_upload s name hc readBpmn readPnml genBpmn genPn).2 = [] ∨
    (handle_model_upload s name hc readBpmn readPnml genBpmn genPn).2
        = [FsOp.mkdirTemp, FsOp.writeFile name, FsOp.rmtreeTemp] := by
  unfold handle_model_upload
  cases hc with
  | false => left; rfl
  | true =>
    by_cases hb : file_extension_of name = "bpmn"
    · cases readBpmn with
      | error msg => right; simp [hb]
      | ok g =>
        cases hg : genBpmn g with
        | error msg => right; simp [hb, hg]
        | ok m => right; simp [hb, hg]
    · by_cases hp : file_extension_of name = "pnml"
      · cases readPnml with
        | error msg => right; simp [hb, hp]
        | ok t =>
          cases hg : genPn t.1 with
          | error msg => right; simp [hb, hp, hg]
          | ok m => right; simp [hb, hp, hg]
      · right; simp [hb, hp]

/-- Claim C7: whenever an upload handler has written the uploaded bytes
into the transient directory, the trace of file-system operations it
performs ends with the recursive removal of that directory — on the
success path and on every exception path alike. -/
theorem c7_tempdir_removed (s : AppState) (name : String) (hc : Bool)
    (readXes : Except String EventLog)
    (genLog : EventLog → Except String Model)
    (readBpmn : Except String BpmnGraph)
    (readPnml : Except String (PetriNet × Marking × Marking))
    (genBpmn : BpmnGraph → Except String Model)
    (genPn : PetriNet → Except String Model) :
    (FsOp.writeFile name ∈ (handle_log_upload s name hc readXes genLog).2 →
      (handle_log_upload s name hc readXes genLog).2.getLast?
          = some FsOp.rmtreeTemp) ∧
    (FsOp.writeFile name
        ∈ (handle_model_upload s name hc readBpmn readPnml genBpmn genPn).2 →
      (handle_model_upload s name hc readBpmn readPnml genBpmn
          genPn).2.getLast? = some FsOp.rmtreeTemp) := by
  constructor
  · intro hmem
    rcases log_upload_ops s name hc readXes genLog with h | h
    · rw [h] at hmem
      simp at hmem
    · rw [h]
      rfl
  · intro hmem
    rcases model_upload_ops s name hc readBpmn readPnml genBpmn genPn with h | h
    · rw [h] at hmem
      simp at hmem
    · rw [h]
      rfl

/-- Witness for claim C7: a failing log upload and a successful model
upload, both ending in the removal of the transient directory. -/
theorem c7_tempdir_removed_witness :
    (handle_log_upload genState "trace.xes" true (Except.error "bad xes")
        (fun _ => Except.error "unused")).2.getLast?
        = some FsOp.rmtreeTemp ∧
    (handle_model_upload genState "m.pnml" true (Except.error "unused")
        (Except.ok (PetriNet.parsed 1, Marking.parsed 1 false,
          Marking.parsed 1 true))
        (fun _ => Except.error "unused")
        (fun _ => Except.ok { objId := 4, content := 4 })).2.getLast?
        = some FsOp.rmtreeTemp :=
  ⟨(c7_tempdir_removed genState "trace.xes" true (Except.error "bad xes")
      (fun _ => Except.error "unused") (Except.error "unused")
      (Except.error "unused") (fun _ => Except.error "unused")
      (fun _ => Except.error "unused")).1 (by decide),
   (c7_tempdir_removed genState "m.pnml" true (Except.error "unused")
      (fun _ => Except.error "unused") (Except.error "unused")
      (Except.ok (PetriNet.parsed 1, Marking.parsed 1 false,
        Marking.parsed 1 true))
      (fun _ => Except.error "unused")
      (fun _ => Except.ok { objId := 4, content := 4 })).2 (by decide)⟩

/-- Claim C8: with a model present, the POWL view renders the process tree
obtained directly from the model (no Petri-net constructor occurs in its
output), the Petri view renders the net converted from that tree, and the
BPMN view — in rendering and in export — renders the layouted conversion
of exactly that net with its markings: the chain is always tree to net to
BPMN, never BPMN from the tree directly or from another BPMN. -/
theorem c8_conversion_chain (s : AppState) (m : Model)
    (hm : s.model_gen = some m) :
    update_visualization s true ViewType.powl
        = some (VisOutput.powlVis (get_powl m)) ∧
    update_visualization s true ViewType.petri
        = some (VisOutput.petriVis (PetriNet.ofTree (get_powl m))
            (Marking.ofTree (get_powl m) false)
            (Marking.ofTree (get_powl m) true)) ∧
    update_visualization s true ViewType.bpmn
        = some (VisOutput.bpmnVis (BpmnGraph.layouted
            (BpmnGraph.ofNet (PetriNet.ofTree (get_powl m))
              (Marking.ofTree (get_powl m) false)
              (Marking.ofTree (get_powl m) true)))) ∧
    download_bpmn s
        = some (BpmnGraph.layouted
            (BpmnGraph.ofNet (PetriNet.ofTree (get_powl m))
              (Marking.ofTree (get_powl m) false)
              (Marking.ofTree (get_powl m) true))) := by
  refine ⟨?_, ?_, ?_, ?_⟩ <;>
    simp [update_visualization, download_bpmn, convert_to_petri_net,
      convert_to_bpmn, bpmn_layouter_apply, hm]

/-- A ready session holding the model object 9 with content 4. -/
def readyState : AppState :=
  { provider := "mistral", model_name := "mistral-large", api_key := "k",
    selected_mode := "Model", description_value := "", feedback_value := "",
    model_gen := some { objId := 9, content := 4 },
    feedback_history := [] }

/-- Witness for claim C8 at readyState. -/
theorem c8_conversion_chain_witness :
    update_visualization readyState true ViewType.powl
        = some (VisOutput.powlVis (get_powl { objId := 9, content := 4 })) ∧
    update_visualization readyState true ViewType.petri
        = some (VisOutput.petriVis
            (PetriNet.ofTree (get_powl { objId := 9, content := 4 }))
            (Marking.ofTree (get_powl { objId := 9, content := 4 }) false)
            (Marking.ofTree (get_powl { objId := 9, content := 4 }) true)) ∧
    update_visualization readyState true ViewType.bpmn
        = some (VisOutput.bpmnVis (BpmnGraph.layouted
            (BpmnGraph.ofNet
              (PetriNet.ofTree (get_powl { objId := 9, content := 4 }))
              (Marking.ofTree (get_powl { objId := 9, content := 4 }) false)
              (Marking.ofTree (get_powl { objId := 9, content := 4 }) true)))) ∧
    download_bpmn readyState
        = some (BpmnGraph.layouted
            (BpmnGraph.ofNet
              (PetriNet.ofTree (get_powl { objId := 9, content := 4 }))
              (Marking.ofTree (get_powl { objId := 9, content := 4 }) false)
              (Marking.ofTree (get_powl { objId := 9, content := 4 }) true))) :=
  c8_conversion_chain readyState { objId := 9, content := 4 } rfl

/-- Claim C9: changing the AI provider stores the new provider and
overwrites the stored model name with the default of the new provider,
for every prior state — in particular discarding any model name the user
had typed in. -/
theorem c9_provider_change_overwrites_model_name
    (defaults : String → String) (value : String) (s : AppState) :
    (on_provider_change defaults value s).provider = value ∧
    (on_provider_change defaults value s).model_name = defaults value ∧
    (on_provider_change defaults value s)
        = { s with provider := value, model_name := defaults value } := by
  refine ⟨rfl, rfl, rfl⟩

/-- Claim C10: on a .pnml upload only the parsed net is passed to the
generation engine; the parsed initial and final markings are discarded, so
the whole outcome of the handler — stored model included — is unchanged
under any change of the markings. -/
theorem c10_pnml_markings_discarded (s : AppState) (name : String)
    (hc : Bool) (readBpmn : Except String BpmnGraph) (pn : PetriNet)
    (im fm im2 fm2 : Marking)
    (genBpmn : BpmnGraph → Except String Model)
    (genPn : PetriNet → Except String Model) :
    handle_model_upload s name hc readBpmn (Except.ok (pn, im, fm))
        genBpmn genPn
      = handle_model_upload s name hc readBpmn (Except.ok (pn, im2, fm2))
        genBpmn genPn := by
  unfold handle_model_upload
  cases hc with
  | false => rfl
  | true =>
    by_cases hb : file_extension_of name = "bpmn"
    · simp [hb]
    · by_cases hp : file_extension_of name = "pnml"
      · simp [hb, hp]
      · simp [hb, hp]

end ProMoAI
